import Mathlib

/-!
Verification development for the fleet-status report generator
(`EnvioMain.py`).  The Python `main` function is shallowly embedded below:

* JSON records become Lean structures whose optional fields are `Option`
  (a missing key or a JSON `null` both surface as `none`, matching
  `dict.get`);
* the `dateutil` timestamp parse is external, so a GPS time field carries
  its parse outcome as data: `none` = no timestamp key, `some none` =
  present but unparsable (`dp.parse` raises), `some (some t)` = parses to
  the absolute instant `t` (seconds).  `astimezone` preserves the instant,
  so the staleness comparison `now_mx - loc_time > timedelta(hours=1)`
  is the instant comparison `now - t > 3600`;
* latitude / longitude are only ever interpolated into an f-string, so the
  embedding carries their textual rendering (`none` renders as `"None"`,
  exactly as Python formats the value `None`);
* Python raising inside the per-record `try` is `Except.error ()`;
  a gate's `continue` is `Except.ok none`;
* the openpyxl worksheet is a cell-content map plus a merge list;
  `ws.cell(row, column, value)` assigns only when `value is not None`.
-/

set_option autoImplicit false

namespace Envio

/-- `gps["reverseGeo"]` block: optional formatted address. -/
structure ReverseGeo where
  formattedLocation : Option String
deriving DecidableEq, Repr

/-- `gps["address"]` block: optional address identifier. -/
structure Address where
  id : Option String
deriving DecidableEq, Repr

/-- The `gps` block of one raw vehicle record (`u.get("gps", {})`).
`time` carries the parse outcome of the ISO timestamp string (see the
file header); `latitude`/`longitude` carry the textual rendering of the
raw values, since the program only ever interpolates them. -/
structure Gps where
  time : Option (Option Int)
  address : Option Address
  speedMilesPerHour : Option ℚ
  isEcuSpeed : Option Bool
  reverseGeo : Option ReverseGeo
  latitude : Option String
  longitude : Option String
deriving DecidableEq, Repr

/-- One raw vehicle record `u` from `/fleet/vehicles/stats?types=gps`.
A record whose `gps` key is absent behaves as an all-`none` `Gps`
(`u.get("gps", {})` followed by `.get` calls), so the block is inlined. -/
structure RawObs where
  name : Option String
  gps : Gps
deriving DecidableEq, Repr

/-- One entry appended to `results`: `{"Unidad", "Ubicación", "Estatus"}`. -/
structure Row where
  unidad : String
  ubicacion : String
  estatus : String
deriving DecidableEq, Repr

/-- One record of `tags.json()["data"]["addresses"]`; only its optional
`id` field is consumed. -/
structure AddressRec where
  id : Option String
deriving DecidableEq, Repr

/-- `now_mx = datetime.now(pytz.timezone(MX_TZ))`: the absolute instant
(seconds) used by the staleness comparison, together with the local
calendar/clock fields used by `isoformat` / `strftime`. -/
structure LocalTime where
  instant : Int
  year : Nat
  month : Nat
  day : Nat
  hour : Nat
  minute : Nat
  second : Nat
deriving DecidableEq, Repr

/-! ### Exclusion Set Builder (lines 109-134) -/

/-- The static `predefined_special` set of address identifiers
(lines 109-114).  The element type is `Option String` because the
member the program later tests (`gps.get("address", {}).get("id")`)
is `None`-or-string; the set itself only ever holds strings. -/
def predefined_special : Finset (Option String) :=
  {some "254792506", some "254801835", some "254802150", some "254802588",
   some "254803338", some "254859196", some "94193861", some "95243156",
   some "95243200", some "95243316", some "95243513", some "244349505",
   some "245970120", some "254794170", some "254794716", some "257477773"}

/-- `new_ids = {a["id"] for a in addresses if a.get("id")}` (lines 127-130):
keeps a fetched identifier only when it is truthy, i.e. present and not
the empty string. -/
def new_ids (addrs : List AddressRec) : Finset (Option String) :=
  (addrs.filterMap (fun a =>
    match a.id with
    | some s => if s = "" then none else some (some s)
    | none => none)).toFinset

/-- Lines 117-134: on any failure of the tag fetch (transport error,
`raise_for_status`, malformed payload) the `except` branch runs
`sys.exit(1)`, modelled as `Except.error ()`; otherwise the run's
exclusion set is `predefined_special.union(new_ids)`. -/
def buildExclusion (fetch : Except Unit (List AddressRec)) :
    Except Unit (Finset (Option String)) :=
  match fetch with
  | .error _ => .error ()
  | .ok addrs => .ok (predefined_special ∪ new_ids addrs)

/-! ### Per-record gates (lines 153-176) -/

/-- `gps.get("address", {}).get("id")`. -/
def addrIdOf (g : Gps) : Option String :=
  (g.address.getD ⟨none⟩).id

/-- `speed = gps.get("speedMilesPerHour", 0)`. -/
def effSpeed (g : Gps) : ℚ :=
  g.speedMilesPerHour.getD 0

/-- `ecu = gps.get("isEcuSpeed", False)`. -/
def effEcu (g : Gps) : Bool :=
  g.isEcuSpeed.getD false

/-- `gps.get("reverseGeo", {}).get("formattedLocation")`. -/
def effFormatted (g : Gps) : Option String :=
  (g.reverseGeo.getD ⟨none⟩).formattedLocation

/-- How Python's f-string renders `gps.get('latitude')`: the value `None`
prints as `"None"`, a present value prints as its textual form. -/
def pyStr (o : Option String) : String :=
  o.getD "None"

/-- Lines 168-169: `formattedLocation or f"Lat: ..., Lon: ..."` — Python's
`or` falls through on a falsy left operand (`None` or `""`). -/
def locationOf (g : Gps) : String :=
  match effFormatted g with
  | some s =>
      if s = "" then "Lat: " ++ pyStr g.latitude ++ ", Lon: " ++ pyStr g.longitude
      else s
  | none => "Lat: " ++ pyStr g.latitude ++ ", Lon: " ++ pyStr g.longitude

/-- Lines 167-173: status and row construction for a record that passed
every gate. -/
def deriveRow (u : RawObs) : Row :=
  { unidad := u.name.getD "Sin nombre"
    ubicacion := locationOf u.gps
    estatus := if effSpeed u.gps = 0 ∧ effEcu u.gps = true then "DETENIDO" else "RUTA" }

/-- Lines 163-174: the motion-significance gate (`speed == 0 and not ecu`
drops) followed by row derivation. -/
def motionGates (u : RawObs) : Option Row :=
  if effSpeed u.gps = 0 ∧ effEcu u.gps = false then none
  else some (deriveRow u)

/-- Lines 161-174: the exclusion gate followed by the motion gates. -/
def postStaleness (special : Finset (Option String)) (u : RawObs) : Option Row :=
  if addrIdOf u.gps ∈ special then none
  else motionGates u

/-- Lines 155-174, one loop body: the staleness gate, then the rest.
`Except.error ()` is the `dp.parse` exception escaping to the loop's
`except` handler; `Except.ok none` is a gate's `continue`. -/
def processRecord (now : Int) (special : Finset (Option String)) (u : RawObs) :
    Except Unit (Option Row) :=
  match u.gps.time with
  | none => .ok (postStaleness special u)
  | some none => .error ()
  | some (some t) =>
      if now - t > 3600 then .ok none
      else .ok (postStaleness special u)

/-- The row a record contributes: `none` both for a gate drop and for a
caught per-record exception. -/
def rowOf (e : Except Unit (Option Row)) : Option Row :=
  match e with
  | .ok o => o
  | .error _ => none

/-- Lines 151-176: the `for u in vehicles` loop accumulating `results`;
an `except` branch only logs and falls through to the next record. -/
def classify (now : Int) (special : Finset (Option String)) (l : List RawObs) :
    List Row :=
  l.foldl (fun acc u =>
    match processRecord now special u with
    | .ok (some r) => acc ++ [r]
    | _ => acc) []

/-! ### Timestamp formatting (lines 189-190, 228) -/

/-- Two-digit zero-padded decimal field, as `strftime` renders `%m`,
`%d`, `%H`, `%M`, `%S` for their in-range values. -/
def pad2 (n : Nat) : String :=
  String.mk [Nat.digitChar (n / 10), Nat.digitChar (n % 10)]

/-- Four-digit zero-padded decimal field, as `strftime` renders `%Y`
for years below 10000. -/
def pad4 (n : Nat) : String :=
  pad2 (n / 100) ++ pad2 (n % 100)

/-- `now_mx.date().isoformat()` (line 189): `YYYY-MM-DD`. -/
def dateIso (t : LocalTime) : String :=
  pad4 t.year ++ "-" ++ pad2 t.month ++ "-" ++ pad2 t.day

/-- `now_mx.strftime("%H:%M:%S")` (line 190). -/
def timeStr (t : LocalTime) : String :=
  pad2 t.hour ++ ":" ++ pad2 t.minute ++ ":" ++ pad2 t.second

/-- `now_mx.strftime("%Y-%m-%d_%H-%M-%S")` (line 228). -/
def fileTs (t : LocalTime) : String :=
  pad4 t.year ++ "-" ++ pad2 t.month ++ "-" ++ pad2 t.day ++ "_" ++
    pad2 t.hour ++ "-" ++ pad2 t.minute ++ "-" ++ pad2 t.second

/-! ### Report Renderer (lines 179-231) -/

/-- The active worksheet: cell contents (row, column, 1-based) plus the
list of merged ranges `(minRow, minCol, maxRow, maxCol)`.  Styles
(borders, fills, fonts) carry no decision logic and are not modelled. -/
structure Sheet where
  cells : Nat → Nat → Option String
  merges : List (Nat × Nat × Nat × Nat)

/-- Unconditional cell-value assignment. -/
def setCell (s : Sheet) (r c : Nat) (v : String) : Sheet :=
  { s with cells := fun r2 c2 => if r2 = r ∧ c2 = c then some v else s.cells r2 c2 }

/-- `ws.cell(row=r, column=c, value=v)`: openpyxl assigns the value only
when `v is not None`, so `none` leaves the cell's content untouched. -/
def writeCell (s : Sheet) (r c : Nat) (v : Option String) : Sheet :=
  match v with
  | some str => setCell s r c str
  | none => s

/-- `ws.merge_cells(...)`: record a new merged range. -/
def addMerge (s : Sheet) (m : Nat × Nat × Nat × Nat) : Sheet :=
  { s with merges := s.merges ++ [m] }

/-- Lines 183-186: unmerge every range whose `min_row >= start_row`,
i.e. keep exactly the ranges starting above `start`. -/
def unmergeFrom (start : Nat) (s : Sheet) : Sheet :=
  { s with merges := s.merges.filter (fun m => m.1 < start) }

/-- Lines 202-221, one iteration: unit name in column 1, merge columns
2-8 and write the location in column 2 (the `value=None` writes on
columns 3-8 only touch the border), status in column 9. -/
def renderRow (s : Sheet) (i : Nat) (r : Row) : Sheet :=
  let s1 := setCell s i 1 r.unidad
  let s2 := addMerge s1 (i, 2, i, 8)
  let s3 := (List.range' 2 7).foldl
    (fun acc col => writeCell acc i col (if col = 2 then some r.ubicacion else none)) s2
  setCell s3 i 9 r.estatus

/-- `for i, row in enumerate(results, start=start_row)`. -/
def renderRowsAux : Nat → List Row → Sheet → Sheet
  | _, [], s => s
  | i, r :: rest, s => renderRowsAux (i + 1) rest (renderRow s i r)

/-- Lines 179-225: unmerge rows >= 7, write date (C2) and time (F2),
dump the rows from row 7, then the dynamic `COUNTA` formula in H2.
(Columns: C = 3, F = 6, H = 8.)  `7 + rows.length - 1` is Python's
`start_row + len(results) - 1`; both give 6 when the list is empty. -/
def render (now : LocalTime) (rows : List Row) (template : Sheet) : Sheet :=
  let s1 := unmergeFrom 7 template
  let s2 := setCell s1 2 3 (dateIso now)
  let s3 := setCell s2 2 6 (timeStr now)
  let s4 := renderRowsAux 7 rows s3
  setCell s4 2 8 ("=COUNTA(A" ++ toString 7 ++ ":A" ++ toString (7 + rows.length - 1) ++ ")")

/-- Spreadsheet `COUNTA` over column A, rows `lo..hi` as written in a
range reference: a spreadsheet normalizes a reversed reference
(`A7:A6` denotes the cells `A6:A7`), and `COUNTA` counts the cells
holding a value.  This models the consuming viewer, which is outside
the repository. -/
def countaA (s : Sheet) (lo hi : Nat) : Nat :=
  ((List.range' (min lo hi) (max lo hi - min lo hi + 1)).filter
    (fun r => (s.cells r 1).isSome)).length

/-! ### The saved file (lines 228-230) -/

/-- The template path (line 106). -/
def templateName : String :=
  "Plantilla.xlsx"

/-- Line 229: the output filename. -/
def outputName (t : LocalTime) : String :=
  "Reporte de estatus de unidades " ++ fileTs t ++ ".xlsx"

/-- A file system mapping names to spreadsheet contents. -/
def FileSys : Type :=
  String → Option Sheet

/-- `wb.save(nuevo_archivo)` (line 230): the only write the rendering
stage performs, at the output path. -/
def saveReport (fs : FileSys) (t : LocalTime) (report : Sheet) : FileSys :=
  fun f => if f = outputName t then some report else fs f

/-- The fatal-stage skeleton of `main`: tag fetch (exit 1 on failure),
vehicle fetch (exit 1 on failure), then classification and rendering.
`Except.error ()` is `sys.exit(1)`: no report is produced. -/
def runMain (fetch : Except Unit (List AddressRec))
    (vehFetch : Except Unit (List RawObs)) (now : LocalTime) (template : Sheet) :
    Except Unit Sheet :=
  match buildExclusion fetch with
  | .error _ => .error ()
  | .ok special =>
      match vehFetch with
      | .error _ => .error ()
      | .ok vehicles => .ok (render now (classify now.instant special vehicles) template)

/-! ### Claim-side definitions and concrete sample inputs -/

/-- The exclusion set as claim C5 words it: the static identifiers
united with every identifier *present* in the fetched records, only
records carrying no identifier being skipped.  (Spec wording, for
comparison with `buildExclusion`.) -/
def exclusionUnionClaim (addrs : List AddressRec) : Finset (Option String) :=
  predefined_special ∪ ((addrs.filterMap (fun a => a.id)).map some).toFinset

/-- The amended wording: identifiers that are missing *or empty* are
skipped. -/
def exclusionUnionAmended (addrs : List AddressRec) : Finset (Option String) :=
  predefined_special ∪
    (((addrs.filterMap (fun a => a.id)).filter (fun s => s ≠ "")).map some).toFinset

/-- Field bounds under which `strftime`'s padded rendering is the
two/four-digit form modelled by `pad2`/`pad4` (true of every real
datetime). -/
def ValidTs (t : LocalTime) : Prop :=
  t.year < 10000 ∧ t.month < 100 ∧ t.day < 100 ∧
    t.hour < 100 ∧ t.minute < 100 ∧ t.second < 100

/-- A concrete run time for witnesses. -/
def sampleTime : LocalTime :=
  ⟨100000, 2026, 10, 12, 8, 30, 5⟩

/-- A template whose header row 6 has a unit-column label, as report
templates commonly do; rows from 7 down are blank. -/
def templateA6 : Sheet :=
  ⟨fun r c => if r = 6 ∧ c = 1 then some "UNIDAD" else none, []⟩

/-- A completely blank template. -/
def emptyTemplate : Sheet :=
  ⟨fun _ _ => none, []⟩

/-- A moving unit: nonzero speed, no timestamp, no address, no
reverse-geocoded location. -/
def obsMoving : RawObs :=
  { name := some "U1"
    gps := { time := none, address := none, speedMilesPerHour := some 30,
             isEcuSpeed := some false, reverseGeo := none,
             latitude := some "19.43", longitude := some "-99.13" } }

/-- A stopped unit: zero speed corroborated by the ECU flag. -/
def obsStopped : RawObs :=
  { name := some "U2"
    gps := { time := none, address := none, speedMilesPerHour := some 0,
             isEcuSpeed := some true, reverseGeo := none,
             latitude := none, longitude := none } }

/-- A noise record: zero speed, ECU flag absent. -/
def obsNoise : RawObs :=
  { name := some "U3"
    gps := { time := none, address := none, speedMilesPerHour := some 0,
             isEcuSpeed := none, reverseGeo := none,
             latitude := none, longitude := none } }

/-- A record whose timestamp parsed to instant 0 (stale when now is
large). -/
def obsStale : RawObs :=
  { name := some "U4"
    gps := { time := some (some 0), address := none, speedMilesPerHour := some 40,
             isEcuSpeed := some false, reverseGeo := none,
             latitude := none, longitude := none } }

/-- A record carrying an unparsable timestamp string. -/
def obsBadTime : RawObs :=
  { name := some "U5"
    gps := { time := some none, address := none, speedMilesPerHour := some 25,
             isEcuSpeed := some true, reverseGeo := none,
             latitude := none, longitude := none } }

/-- A fast unit parked at a statically excluded address. -/
def obsExcluded : RawObs :=
  { name := some "U6"
    gps := { time := none, address := some ⟨some "254792506"⟩,
             speedMilesPerHour := some 50, isEcuSpeed := some true,
             reverseGeo := none, latitude := none, longitude := none } }

/-! ### Helper lemmas: the classification loop -/

theorem classify_foldl (now : Int) (special : Finset (Option String)) :
    ∀ (l : List RawObs) (acc : List Row),
      l.foldl (fun acc u =>
        match processRecord now special u with
        | .ok (some r) => acc ++ [r]
        | _ => acc) acc
      = acc ++ l.filterMap (fun u => rowOf (processRecord now special u)) := by
  intro l
  induction l with
  | nil => intro acc; simp
  | cons u rest ih =>
      intro acc
      simp only [List.foldl_cons, List.filterMap_cons]
      cases h : processRecord now special u with
      | error e => simp [h, rowOf, ih]
      | ok o =>
          cases o with
          | none => simp [h, rowOf, ih]
          | some r => simp [h, rowOf, ih]

/-- The accumulated `results` list is the in-order `filterMap` of the
input: no sorting or reordering happens anywhere in the loop. -/
theorem classify_eq_filterMap (now : Int) (special : Finset (Option String))
    (l : List RawObs) :
    classify now special l = l.filterMap (fun u => rowOf (processRecord now special u)) := by
  unfold classify
  rw [classify_foldl]
  simp

/-! ### Helper lemmas: the renderer -/

theorem renderRow_eq (s : Sheet) (i : Nat) (r : Row) :
    renderRow s i r =
      setCell (setCell (addMerge (setCell s i 1 r.unidad) (i, 2, i, 8)) i 2 r.ubicacion)
        i 9 r.estatus := rfl

theorem setCell_same (s : Sheet) (r c : Nat) (v : String) :
    (setCell s r c v).cells r c = some v := by
  simp [setCell]

theorem setCell_other (s : Sheet) (r c : Nat) (v : String) (r2 c2 : Nat)
    (h : ¬(r2 = r ∧ c2 = c)) : (setCell s r c v).cells r2 c2 = s.cells r2 c2 := by
  simp only [setCell, if_neg h]

theorem renderRow_cells_unidad (s : Sheet) (i : Nat) (r : Row) :
    (renderRow s i r).cells i 1 = some r.unidad := by
  rw [renderRow_eq]
  rw [setCell_other _ _ _ _ _ _ (by simp), setCell_other _ _ _ _ _ _ (by simp)]
  exact setCell_same _ _ _ _

theorem renderRow_cells_ubicacion (s : Sheet) (i : Nat) (r : Row) :
    (renderRow s i r).cells i 2 = some r.ubicacion := by
  rw [renderRow_eq]
  rw [setCell_other _ _ _ _ _ _ (by simp)]
  exact setCell_same _ _ _ _

theorem renderRow_cells_estatus (s : Sheet) (i : Nat) (r : Row) :
    (renderRow s i r).cells i 9 = some r.estatus := by
  rw [renderRow_eq]
  exact setCell_same _ _ _ _

theorem renderRow_frame (s : Sheet) (i : Nat) (r : Row) (r2 c : Nat) (h : r2 ≠ i) :
    (renderRow s i r).cells r2 c = s.cells r2 c := by
  rw [renderRow_eq]
  rw [setCell_other _ _ _ _ _ _ (by tauto), setCell_other _ _ _ _ _ _ (by tauto)]
  show (setCell s i 1 r.unidad).cells r2 c = s.cells r2 c
  exact setCell_other _ _ _ _ _ _ (by tauto)

theorem renderRowsAux_frame (rows : List Row) :
    ∀ (start : Nat) (s : Sheet) (r2 c : Nat), r2 < start →
      (renderRowsAux start rows s).cells r2 c = s.cells r2 c := by
  induction rows with
  | nil => intro start s r2 c _; rfl
  | cons r rest ih =>
      intro start s r2 c h
      show (renderRowsAux (start + 1) rest (renderRow s start r)).cells r2 c = _
      rw [ih (start + 1) _ r2 c (by omega)]
      exact renderRow_frame _ _ _ _ _ (by omega)

theorem renderRowsAux_cells (rows : List Row) :
    ∀ (start : Nat) (s : Sheet) (i : Nat) (h : i < rows.length),
      (renderRowsAux start rows s).cells (start + i) 1 = some (rows.get ⟨i, h⟩).unidad
      ∧ (renderRowsAux start rows s).cells (start + i) 2 = some (rows.get ⟨i, h⟩).ubicacion
      ∧ (renderRowsAux start rows s).cells (start + i) 9 = some (rows.get ⟨i, h⟩).estatus := by
  induction rows with
  | nil => intro start s i h; exact absurd h (by simp)
  | cons r rest ih =>
      intro start s i h
      cases i with
      | zero =>
          have hstep : renderRowsAux start (r :: rest) s
              = renderRowsAux (start + 1) rest (renderRow s start r) := rfl
          have hf : ∀ c : Nat,
              (renderRowsAux (start + 1) rest (renderRow s start r)).cells (start + 0) c
              = (renderRow s start r).cells (start + 0) c :=
            fun c => renderRowsAux_frame rest (start + 1) _ (start + 0) c (by omega)
          rw [hstep]
          refine ⟨?_, ?_, ?_⟩
          · rw [hf 1]; exact renderRow_cells_unidad _ _ _
          · rw [hf 2]; exact renderRow_cells_ubicacion _ _ _
          · rw [hf 9]; exact renderRow_cells_estatus _ _ _
      | succ j =>
          have hj : j < rest.length := by simpa using h
          have := ih (start + 1) (renderRow s start r) j hj
          have harith : start + 1 + j = start + (j + 1) := by omega
          rw [harith] at this
          exact this

theorem render_cells_row (now : LocalTime) (rows : List Row) (template : Sheet)
    (i : Nat) (h : i < rows.length) :
    (render now rows template).cells (7 + i) 1 = some (rows.get ⟨i, h⟩).unidad
    ∧ (render now rows template).cells (7 + i) 2 = some (rows.get ⟨i, h⟩).ubicacion
    ∧ (render now rows template).cells (7 + i) 9 = some (rows.get ⟨i, h⟩).estatus := by
  have hne : ∀ c : Nat, ¬(7 + i = 2 ∧ c = 8) := by omega
  unfold render
  refine ⟨?_, ?_, ?_⟩
  · rw [setCell_other _ _ _ _ _ _ (hne 1)]; exact (renderRowsAux_cells rows 7 _ i h).1
  · rw [setCell_other _ _ _ _ _ _ (hne 2)]; exact (renderRowsAux_cells rows 7 _ i h).2.1
  · rw [setCell_other _ _ _ _ _ _ (hne 9)]; exact (renderRowsAux_cells rows 7 _ i h).2.2

theorem render_formula (now : LocalTime) (rows : List Row) (template : Sheet) :
    (render now rows template).cells 2 8
      = some ("=COUNTA(A" ++ toString 7 ++ ":A" ++ toString (7 + rows.length - 1) ++ ")") := by
  unfold render
  exact setCell_same _ _ _ _

theorem countaA_render (now : LocalTime) (rows : List Row) (template : Sheet)
    (h : 0 < rows.length) :
    countaA (render now rows template) 7 (6 + rows.length) = rows.length := by
  unfold countaA
  rw [show min 7 (6 + rows.length) = 7 by omega,
    show max 7 (6 + rows.length) = 6 + rows.length by omega,
    show 6 + rows.length - 7 + 1 = rows.length by omega]
  have hall : ∀ r ∈ List.range' 7 rows.length,
      (((render now rows template).cells r 1).isSome) = true := by
    intro r hr
    rw [List.mem_range'_1] at hr
    have hi : r - 7 < rows.length := by omega
    have hc := (render_cells_row now rows template (r - 7) hi).1
    rw [show 7 + (r - 7) = r by omega] at hc
    rw [hc]
    rfl
  rw [List.filter_eq_self.mpr hall, List.length_range']

/-! ### Helper lemmas: timestamp rendering -/

theorem pad2_data (n : Nat) : (pad2 n).data =
    [Nat.digitChar (n / 10), Nat.digitChar (n % 10)] := rfl

theorem fileTs_data (t : LocalTime) : (fileTs t).data =
    [Nat.digitChar (t.year / 100 / 10), Nat.digitChar (t.year / 100 % 10),
     Nat.digitChar (t.year % 100 / 10), Nat.digitChar (t.year % 100 % 10),
     Char.ofNat 45,
     Nat.digitChar (t.month / 10), Nat.digitChar (t.month % 10),
     Char.ofNat 45,
     Nat.digitChar (t.day / 10), Nat.digitChar (t.day % 10),
     Char.ofNat 95,
     Nat.digitChar (t.hour / 10), Nat.digitChar (t.hour % 10),
     Char.ofNat 45,
     Nat.digitChar (t.minute / 10), Nat.digitChar (t.minute % 10),
     Char.ofNat 45,
     Nat.digitChar (t.second / 10), Nat.digitChar (t.second % 10)] := rfl

theorem fileTs_length (t : LocalTime) : (fileTs t).length = 19 := rfl

theorem digitChar_inj : ∀ a : Nat, a < 10 → ∀ b : Nat, b < 10 →
    Nat.digitChar a = Nat.digitChar b → a = b := by decide

theorem fileTs_data_inj (t1 t2 : LocalTime) (h1 : ValidTs t1) (h2 : ValidTs t2)
    (h : (fileTs t1).data = (fileTs t2).data) :
    t1.year = t2.year ∧ t1.month = t2.month ∧ t1.day = t2.day ∧
      t1.hour = t2.hour ∧ t1.minute = t2.minute ∧ t1.second = t2.second := by
  obtain ⟨hy, hmo, hd, hh, hmi, hs⟩ := h1
  obtain ⟨hy2, hmo2, hd2, hh2, hmi2, hs2⟩ := h2
  rw [fileTs_data, fileTs_data] at h
  simp only [List.cons.injEq, and_true] at h
  obtain ⟨a1, a2, a3, a4, -, b1, b2, -, c1, c2, -, d1, d2, -, e1, e2, -, f1, f2⟩ := h
  refine ⟨?_, ?_, ?_, ?_, ?_, ?_⟩
  · have g1 := digitChar_inj _ (by omega) _ (by omega) a1
    have g2 := digitChar_inj _ (by omega) _ (by omega) a2
    have g3 := digitChar_inj _ (by omega) _ (by omega) a3
    have g4 := digitChar_inj _ (by omega) _ (by omega) a4
    omega
  · have g1 := digitChar_inj _ (by omega) _ (by omega) b1
    have g2 := digitChar_inj _ (by omega) _ (by omega) b2
    omega
  · have g1 := digitChar_inj _ (by omega) _ (by omega) c1
    have g2 := digitChar_inj _ (by omega) _ (by omega) c2
    omega
  · have g1 := digitChar_inj _ (by omega) _ (by omega) d1
    have g2 := digitChar_inj _ (by omega) _ (by omega) d2
    omega
  · have g1 := digitChar_inj _ (by omega) _ (by omega) e1
    have g2 := digitChar_inj _ (by omega) _ (by omega) e2
    omega
  · have g1 := digitChar_inj _ (by omega) _ (by omega) f1
    have g2 := digitChar_inj _ (by omega) _ (by omega) f2
    omega

theorem outputName_length (t : LocalTime) : (outputName t).length = 55 := by
  unfold outputName
  rw [String.length_append, String.length_append, fileTs_length]
  rfl

theorem outputName_ne_templateName (t : LocalTime) : outputName t ≠ templateName := by
  intro h
  have hl := congrArg String.length h
  rw [outputName_length] at hl
  exact absurd hl (by decide)

theorem outputName_inj (t1 t2 : LocalTime) (h1 : ValidTs t1) (h2 : ValidTs t2)
    (h : outputName t1 = outputName t2) :
    t1.year = t2.year ∧ t1.month = t2.month ∧ t1.day = t2.day ∧
      t1.hour = t2.hour ∧ t1.minute = t2.minute ∧ t1.second = t2.second := by
  apply fileTs_data_inj t1 t2 h1 h2
  unfold outputName at h
  have hd := congrArg String.data h
  rw [String.data_append, String.data_append, String.data_append, String.data_append,
    List.append_assoc, List.append_assoc] at hd
  exact List.append_cancel_right (List.append_cancel_left hd)

/-! ### Helper lemmas: the exclusion set -/

theorem new_ids_eq_filter (addrs : List AddressRec) :
    new_ids addrs
      = (((addrs.filterMap (fun a => a.id)).filter (fun s => s ≠ "")).map some).toFinset := by
  unfold new_ids
  congr 1
  induction addrs with
  | nil => rfl
  | cons a rest ih =>
      cases ha : a.id with
      | none => simp only [List.filterMap_cons, ha]; exact ih
      | some s =>
          by_cases hs : s = ""
          · simp [List.filterMap_cons, ha, hs, ih]
          · simp [List.filterMap_cons, ha, hs, ih]

theorem none_notMem_exclusion (addrs : List AddressRec) :
    none ∉ predefined_special ∪ new_ids addrs := by
  intro h
  rcases Finset.mem_union.mp h with h | h
  · revert h; decide
  · unfold new_ids at h
    rw [List.mem_toFinset, List.mem_filterMap] at h
    obtain ⟨a, -, ha⟩ := h
    cases hid : a.id with
    | none => rw [hid] at ha; exact Option.noConfusion ha
    | some s =>
        rw [hid] at ha
        by_cases hs : s = ""
        · simp [hs] at ha
        · simp [hs] at ha

/-! ### Claim theorems -/

/-- C1: for every record that reaches the motion gates (its timestamp is
absent or fresh, its address is not excluded): zero speed with the ECU
flag false — the flag defaulting to false when absent — is dropped and
produces no row; zero speed with the flag true produces a row with
status STOPPED (`"DETENIDO"`); nonzero speed produces a row with status
IN_ROUTE (`"RUTA"`) regardless of the flag. -/
theorem c1_motion_gates (now : Int) (special : Finset (Option String)) (u : RawObs)
    (hTime : u.gps.time = none ∨ ∃ t : Int, u.gps.time = some (some t) ∧ ¬ now - t > 3600)
    (hAddr : addrIdOf u.gps ∉ special) :
    (effSpeed u.gps = 0 → effEcu u.gps = false →
      rowOf (processRecord now special u) = none)
    ∧ (effSpeed u.gps = 0 → effEcu u.gps = true →
      rowOf (processRecord now special u) = some (deriveRow u)
      ∧ (deriveRow u).estatus = "DETENIDO")
    ∧ (effSpeed u.gps ≠ 0 →
      rowOf (processRecord now special u) = some (deriveRow u)
      ∧ (deriveRow u).estatus = "RUTA") := by
  have hred : rowOf (processRecord now special u) = postStaleness special u := by
    rcases hTime with h | ⟨t, ht, hlt⟩
    · simp [processRecord, h, rowOf]
    · simp [processRecord, ht, rowOf, if_neg hlt]
  have hps : postStaleness special u = motionGates u := by
    unfold postStaleness
    rw [if_neg hAddr]
  rw [hred, hps]
  refine ⟨?_, ?_, ?_⟩
  · intro hs he
    simp [motionGates, hs, he]
  · intro hs he
    constructor
    · simp [motionGates, hs, he]
    · simp [deriveRow, hs, he]
  · intro hs
    constructor
    · simp [motionGates, hs]
    · simp [deriveRow, hs]

/-- Witness for C1 at three concrete records: a zero-speed record with
the ECU flag absent is dropped, a zero-speed ECU-corroborated record is
STOPPED, a 30 mph record is IN_ROUTE. -/
theorem c1_motion_gates_witness :
    rowOf (processRecord 0 ∅ obsNoise) = none
    ∧ (rowOf (processRecord 0 ∅ obsStopped) = some (deriveRow obsStopped)
        ∧ (deriveRow obsStopped).estatus = "DETENIDO")
    ∧ (rowOf (processRecord 0 ∅ obsMoving) = some (deriveRow obsMoving)
        ∧ (deriveRow obsMoving).estatus = "RUTA") :=
  ⟨(c1_motion_gates 0 ∅ obsNoise (Or.inl rfl) (by decide)).1 (by decide) (by decide),
   (c1_motion_gates 0 ∅ obsStopped (Or.inl rfl) (by decide)).2.1 (by decide) (by decide),
   (c1_motion_gates 0 ∅ obsMoving (Or.inl rfl) (by decide)).2.2 (by decide)⟩

/-- C2: a record with a parsed timestamp more than one hour older than
`now` is dropped (not fatally: the gate yields `ok none`); a record
whose timestamp is present but unparsable is dropped by the per-record
exception handler, never aborting the surrounding loop; a record with no
timestamp is not dropped by this gate and proceeds to the later gates. -/
theorem c2_staleness_gate (now : Int) (special : Finset (Option String)) (u : RawObs) :
    (∀ t : Int, u.gps.time = some (some t) → now - t > 3600 →
      processRecord now special u = .ok none)
    ∧ (u.gps.time = some none →
      processRecord now special u = .error ()
      ∧ ∀ xs ys : List RawObs,
        classify now special (xs ++ u :: ys) = classify now special (xs ++ ys))
    ∧ (u.gps.time = none →
      processRecord now special u = .ok (postStaleness special u)) := by
  refine ⟨?_, ?_, ?_⟩
  · intro t ht hstale
    simp [processRecord, ht, if_pos hstale]
  · intro ht
    have herr : processRecord now special u = .error () := by
      simp [processRecord, ht]
    refine ⟨herr, ?_⟩
    intro xs ys
    rw [classify_eq_filterMap, classify_eq_filterMap, List.filterMap_append,
      List.filterMap_append, List.filterMap_cons]
    simp [herr, rowOf]
  · intro ht
    simp [processRecord, ht]

/-- Witness for C2: with `now = 10000`, the record parsed to instant 0 is
dropped non-fatally, the unparsable-timestamp record raises and the loop
result is unchanged by its presence, and the timestampless record falls
through to the later gates. -/
theorem c2_staleness_gate_witness :
    processRecord 10000 ∅ obsStale = .ok none
    ∧ processRecord 10000 ∅ obsBadTime = .error ()
    ∧ classify 10000 ∅ ([obsMoving] ++ obsBadTime :: [obsStopped])
        = classify 10000 ∅ ([obsMoving] ++ [obsStopped])
    ∧ processRecord 10000 ∅ obsMoving = .ok (postStaleness ∅ obsMoving) :=
  ⟨(c2_staleness_gate 10000 ∅ obsStale).1 0 rfl (by decide),
   ((c2_staleness_gate 10000 ∅ obsBadTime).2.1 rfl).1,
   ((c2_staleness_gate 10000 ∅ obsBadTime).2.1 rfl).2 [obsMoving] [obsStopped],
   (c2_staleness_gate 10000 ∅ obsMoving).2.2 rfl⟩

/-- C3: a record whose address identifier belongs to the exclusion set
never produces a row, whatever its speed, ECU flag or timestamp. -/
theorem c3_exclusion_gate (now : Int) (special : Finset (Option String))
    (u : RawObs) (s : String)
    (hid : addrIdOf u.gps = some s) (hmem : some s ∈ special) :
    rowOf (processRecord now special u) = none := by
  have hps : postStaleness special u = none := by
    unfold postStaleness
    rw [if_pos (hid ▸ hmem)]
  cases ht : u.gps.time with
  | none => simp [processRecord, ht, rowOf, hps]
  | some o =>
      cases o with
      | none => simp [processRecord, ht, rowOf]
      | some t =>
          by_cases hstale : now - t > 3600
          · simp [processRecord, ht, if_pos hstale, rowOf]
          · simp [processRecord, ht, if_neg hstale, rowOf, hps]

/-- Witness for C3: a 50 mph ECU-corroborated record parked at the
statically excluded address `254792506` produces no row. -/
theorem c3_exclusion_gate_witness :
    rowOf (processRecord 0 (predefined_special ∪ new_ids []) obsExcluded) = none :=
  c3_exclusion_gate 0 (predefined_special ∪ new_ids []) obsExcluded "254792506"
    rfl (by decide)

/-- The only row shape a record can produce: whenever the loop body
yields a row, it is `deriveRow u`. -/
theorem rowOf_processRecord_eq (now : Int) (special : Finset (Option String))
    (u : RawObs) (r : Row) (h : rowOf (processRecord now special u) = some r) :
    r = deriveRow u := by
  cases ht : u.gps.time with
  | none =>
      simp only [processRecord, ht, rowOf, postStaleness, motionGates] at h
      split_ifs at h
      all_goals simp_all
  | some o =>
      cases o with
      | none => simp [processRecord, ht, rowOf] at h
      | some t =>
          by_cases hstale : now - t > 3600
          · simp [processRecord, ht, if_pos hstale, rowOf] at h
          · simp only [processRecord, ht, if_neg hstale, rowOf, postStaleness,
              motionGates] at h
            split_ifs at h
            all_goals simp_all

/-- C4: a reportable record with no reverse-geocoded formatted address
gets the literal fallback location string `"Lat: ..."` `", Lon: ..."`
built from the raw coordinate values (`"None"` when absent or null);
the construction is total, so it never raises. -/
theorem c4_location_fallback (now : Int) (special : Finset (Option String))
    (u : RawObs) (r : Row)
    (hrow : rowOf (processRecord now special u) = some r)
    (hfmt : effFormatted u.gps = none) :
    r.ubicacion = "Lat: " ++ pyStr u.gps.latitude ++ ", Lon: " ++ pyStr u.gps.longitude := by
  rw [rowOf_processRecord_eq now special u r hrow]
  simp [deriveRow, locationOf, hfmt]

/-- Witness for C4 at a record whose latitude and longitude are both
absent: the fallback renders them as Python does, `"None"`. -/
theorem c4_location_fallback_witness :
    (deriveRow obsStopped).ubicacion = "Lat: None, Lon: None" := by
  have h := c4_location_fallback 0 ∅ obsStopped (deriveRow obsStopped)
    (by decide) (by decide)
  exact h.trans rfl

/-- C5 counterexample: a fetched record carrying the *empty-string*
identifier.  The claim's union (static identifiers plus every identifier
present) would contain `""`, but the builder's truthiness test
(`if a.get("id")`) skips it, so the built set differs from the claimed
one. -/
theorem c5_exclusion_union_counterexample :
    buildExclusion (.ok [⟨some ""⟩])
      = .ok (predefined_special ∪ new_ids [⟨some ""⟩])
    ∧ predefined_special ∪ new_ids [⟨some ""⟩] ≠ exclusionUnionClaim [⟨some ""⟩] :=
  ⟨rfl, by decide⟩

/-- C5 (amended): the builder returns the union of the static
identifiers with exactly the fetched identifiers that are present *and
non-empty* (records whose identifier is missing or empty are skipped
without error), and a failed or malformed fetch makes the whole run
terminate with a non-zero exit before any report is produced. -/
theorem c5_exclusion_union_amended :
    (∀ addrs : List AddressRec,
      buildExclusion (.ok addrs) = .ok (exclusionUnionAmended addrs))
    ∧ (∀ (vf : Except Unit (List RawObs)) (now : LocalTime) (template : Sheet),
      runMain (.error ()) vf now template = .error ()) := by
  constructor
  · intro addrs
    have h1 : buildExclusion (.ok addrs) = .ok (predefined_special ∪ new_ids addrs) := rfl
    rw [h1, new_ids_eq_filter]
    rfl
  · intro vf now template
    rfl

/-- C6: the classified list is the in-order `filterMap` of the input
(no sorting or reordering at any stage), and row `i` of it is written at
sheet row `7 + i` — consecutive rows starting at row 7, in input
iteration order. -/
theorem c6_row_order (nt : LocalTime) (special : Finset (Option String))
    (l : List RawObs) (template : Sheet) (i : Nat)
    (h : i < (classify nt.instant special l).length) :
    classify nt.instant special l
      = l.filterMap (fun u => rowOf (processRecord nt.instant special u))
    ∧ (render nt (classify nt.instant special l) template).cells (7 + i) 1
        = some ((classify nt.instant special l).get ⟨i, h⟩).unidad
    ∧ (render nt (classify nt.instant special l) template).cells (7 + i) 2
        = some ((classify nt.instant special l).get ⟨i, h⟩).ubicacion
    ∧ (render nt (classify nt.instant special l) template).cells (7 + i) 9
        = some ((classify nt.instant special l).get ⟨i, h⟩).estatus :=
  ⟨classify_eq_filterMap nt.instant special l,
   (render_cells_row nt (classify nt.instant special l) template i h).1,
   (render_cells_row nt (classify nt.instant special l) template i h).2.1,
   (render_cells_row nt (classify nt.instant special l) template i h).2.2⟩

/-- Witness for C6: of the two surviving records, the second one's unit
name lands in cell A8 (= row 7 + 1), in input order. -/
theorem c6_row_order_witness :
    (render sampleTime (classify sampleTime.instant ∅ [obsMoving, obsStopped])
        emptyTemplate).cells (7 + 1) 1 = some "U2" :=
  ((c6_row_order sampleTime ∅ [obsMoving, obsStopped] emptyTemplate 1
      (by decide)).2.1).trans (by decide)

/-- C7 counterexample: rendering an *empty* classified list writes the
formula `=COUNTA(A7:A6)` into H2.  `A7:A6` is a degenerate reference
that a spreadsheet normalizes to the cells A6:A7 — not the (empty)
written row range — so against a template whose A6 holds a header label
the formula evaluates to 1, not 0. -/
theorem c7_count_formula_counterexample :
    (render sampleTime [] templateA6).cells 2 8 = some "=COUNTA(A7:A6)"
    ∧ countaA (render sampleTime [] templateA6) 7 6 = 1 := by
  constructor
  · decide
  · decide

/-- C7 (amended): H2 always receives `=COUNTA(A7:A(6+n))` for `n`
classified rows; when `n ≥ 1` that range is exactly the written rows
7..6+n and the count evaluates to `n`; when `n = 0` the range
degenerates to `A7:A6` (the template cells A6:A7 after normalization),
so the formula evaluates to 0 only if those template cells are empty. -/
theorem c7_count_formula_amended (nt : LocalTime) (rows : List Row) (template : Sheet) :
    (render nt rows template).cells 2 8
      = some ("=COUNTA(A" ++ toString 7 ++ ":A" ++ toString (7 + rows.length - 1) ++ ")")
    ∧ (0 < rows.length →
      countaA (render nt rows template) 7 (6 + rows.length) = rows.length) :=
  ⟨render_formula nt rows template,
   fun h => countaA_render nt rows template h⟩

/-- Witness for C7 (amended) with one written row: the count over the
written range A7:A7 evaluates to 1. -/
theorem c7_count_formula_amended_witness :
    countaA (render sampleTime [⟨"U1", "Loc", "RUTA"⟩] emptyTemplate) 7 (6 + 1) = 1 :=
  (c7_count_formula_amended sampleTime [⟨"U1", "Loc", "RUTA"⟩] emptyTemplate).2
    (by decide)

/-- C8: a record whose processing raises is caught by the per-record
handler — it contributes no row and the loop's result on the rest of the
input is exactly what it would have been without the record; no
record-level failure aborts the run or perturbs other records' rows. -/
theorem c8_record_error_isolation (now : Int) (special : Finset (Option String))
    (u : RawObs) (xs ys : List RawObs)
    (herr : processRecord now special u = .error ()) :
    rowOf (processRecord now special u) = none
    ∧ classify now special (xs ++ u :: ys) = classify now special (xs ++ ys) := by
  constructor
  · rw [herr]
    rfl
  · rw [classify_eq_filterMap, classify_eq_filterMap, List.filterMap_append,
      List.filterMap_append, List.filterMap_cons]
    simp [herr, rowOf]

/-- Witness for C8: inserting the unparsable-timestamp record between
two good records leaves the classified list unchanged. -/
theorem c8_record_error_isolation_witness :
    rowOf (processRecord 10000 ∅ obsBadTime) = none
    ∧ classify 10000 ∅ ([obsMoving] ++ obsBadTime :: [obsStopped])
        = classify 10000 ∅ ([obsMoving] ++ [obsStopped]) :=
  c8_record_error_isolation 10000 ∅ obsBadTime [obsMoving] [obsStopped] rfl

/-- C9: saving writes only the output path — the template's file-system
entry is untouched; the output name differs from the template's; and the
name embeds the run timestamp to the second: two valid run times
yielding the same name agree on every calendar and clock field. -/
theorem c9_save_new_file (fs : FileSys) (t : LocalTime) (report : Sheet) :
    saveReport fs t report templateName = fs templateName
    ∧ outputName t ≠ templateName
    ∧ (∀ t1 t2 : LocalTime, ValidTs t1 → ValidTs t2 →
      outputName t1 = outputName t2 →
      t1.year = t2.year ∧ t1.month = t2.month ∧ t1.day = t2.day ∧
        t1.hour = t2.hour ∧ t1.minute = t2.minute ∧ t1.second = t2.second) := by
  refine ⟨?_, outputName_ne_templateName t,
    fun t1 t2 h1 h2 h => outputName_inj t1 t2 h1 h2 h⟩
  unfold saveReport
  rw [if_neg (fun hh => outputName_ne_templateName t hh.symm)]

/-- Witness for C9: the injectivity component applied at the concrete
run time. -/
theorem c9_save_new_file_witness :
    sampleTime.year = sampleTime.year ∧ sampleTime.month = sampleTime.month ∧
      sampleTime.day = sampleTime.day ∧ sampleTime.hour = sampleTime.hour ∧
      sampleTime.minute = sampleTime.minute ∧ sampleTime.second = sampleTime.second :=
  (c9_save_new_file (fun _ => none) sampleTime emptyTemplate).2.2 sampleTime sampleTime
    (by unfold ValidTs; decide) (by unfold ValidTs; decide) rfl

/-- Every member of the built exclusion set is a non-empty string
identifier. -/
theorem mem_new_ids_nonempty (addrs : List AddressRec) (x : Option String)
    (h : x ∈ new_ids addrs) : x ≠ none ∧ x ≠ some "" := by
  unfold new_ids at h
  rw [List.mem_toFinset, List.mem_filterMap] at h
  obtain ⟨a, -, ha⟩ := h
  cases hid : a.id with
  | none => rw [hid] at ha; exact Option.noConfusion ha
  | some s =>
      rw [hid] at ha
      by_cases hs : s = ""
      · simp [hs] at ha
      · simp only [if_neg hs] at ha
        rw [← Option.some.inj ha]
        exact ⟨Option.noConfusion, fun he => hs (Option.some.inj he)⟩

/-- C10: the exclusion set holds only non-empty string identifiers, so a
record whose GPS block has no address object — or an address object
without an id — fails the membership test and proceeds to the motion
gates. -/
theorem c10_missing_id_not_excluded (addrs : List AddressRec) (u : RawObs)
    (haddr : u.gps.address = none ∨ ∃ a : Address, u.gps.address = some a ∧ a.id = none) :
    (∀ x ∈ predefined_special ∪ new_ids addrs, x ≠ none ∧ x ≠ some "")
    ∧ addrIdOf u.gps = none
    ∧ addrIdOf u.gps ∉ predefined_special ∪ new_ids addrs
    ∧ postStaleness (predefined_special ∪ new_ids addrs) u = motionGates u := by
  have hid : addrIdOf u.gps = none := by
    rcases haddr with h | ⟨a, ha, hia⟩
    · simp [addrIdOf, h]
    · simp [addrIdOf, ha, hia]
  have hnm : addrIdOf u.gps ∉ predefined_special ∪ new_ids addrs := by
    rw [hid]
    exact none_notMem_exclusion addrs
  refine ⟨?_, hid, hnm, ?_⟩
  · intro x hx
    rcases Finset.mem_union.mp hx with h | h
    · clear hx
      revert h
      revert x
      decide
    · exact mem_new_ids_nonempty addrs x h
  · unfold postStaleness
    rw [if_neg hnm]

/-- Witness for C10 at a record with no address object at all: the
membership test fails and the exclusion gate passes it through. -/
theorem c10_missing_id_not_excluded_witness :
    addrIdOf obsMoving.gps ∉ predefined_special ∪ new_ids []
    ∧ postStaleness (predefined_special ∪ new_ids []) obsMoving = motionGates obsMoving :=
  ⟨(c10_missing_id_not_excluded [] obsMoving (Or.inl rfl)).2.2.1,
   (c10_missing_id_not_excluded [] obsMoving (Or.inl rfl)).2.2.2⟩

end Envio
